import Mathlib

/-!
Verification of the connection-coordinator config node in
`src/nodes/dxl-client.js` (the `DxlClientNode` constructor of
node-red-contrib-dxl).

The node owns one underlying DXL client and coordinates it on behalf of a
dynamically changing set of user nodes (consumers).  Its mutable state is
four fields: the public `connected` flag, the private `_connecting` and
`_closing` flags, and the `_users` registry (a JS object keyed by node id).
Each run of the `_connect` body additionally attaches one set of
`connect` / `reconnect` / `close` listeners to the underlying client; we
track the number of attached listener sets in `handlers`, since a client
notification runs every attached listener in attachment order.

Side effects of one operation (status-sink invocations, `node.log`
diagnostics, calls to the underlying client's `connect`, `disconnect` and
`destroy`, and resolution of a `done` completion callback) are collected in
an `Out` record.  A `done` value of `some true` means the completion signal
resolved immediately inside the operation; `some false` means it was handed
to the underlying client (passed to `disconnect`, or registered as a
once-`close` listener) and therefore resolves only after the client
finishes disconnecting / confirms closure.
-/

/-- Status tuple passed to a user node's `status` callback:
`fill` (the spec's `color`), `shape` and `text`. -/
structure Status where
  fill : String
  shape : String
  text : String
deriving DecidableEq, Repr

/-- Status broadcast by the `connect` listener (dxl-client.js lines 103-107). -/
def connectedStatus : Status :=
  ⟨"green", "dot", "node-red:common.status.connected"⟩

/-- Status broadcast by the `reconnect` listener (lines 114-118). -/
def reconnectingStatus : Status :=
  ⟨"yellow", "ring", "node-red:common.status.connecting"⟩

/-- Status broadcast by the `close` listener when previously connected
(lines 128-132). -/
def disconnectedStatus : Status :=
  ⟨"red", "ring", "node-red:common.status.disconnected"⟩

/-- Mutable state of a `DxlClientNode`: the `connected`, `_connecting` and
`_closing` flags, the ids present in the `_users` registry (insertion
order, no duplicates), and the number of listener sets `_connect` has
attached to the underlying client. -/
structure NodeState where
  connected : Bool
  connecting : Bool
  closing : Bool
  users : List Nat
  handlers : Nat
deriving DecidableEq, Repr

/-- State right after the constructor body (lines 53, 67, 73, 83): all
flags false, empty registry, no listeners attached yet. -/
def initState : NodeState :=
  { connected := false, connecting := false, closing := false
    users := [], handlers := 0 }

/-- Effects one operation performs, in the order observed.  `statuses`
records each `status` callback invocation as (user id, tuple); `logs`
counts `node.log` diagnostics; `connectCalls` counts `_client.connect()`
calls; `disconnects` records each `_client.disconnect` call, `true` when
the completion callback was passed to it (awaited) and `false` when it was
fire-and-forget; `destroys` counts `_client.destroy()` calls; `done` is
`some true` when the operation's completion callback resolved immediately,
`some false` when its resolution was deferred to the underlying client,
`none` when the operation takes no completion callback. -/
structure Out where
  statuses : List (Nat × Status)
  logs : Nat
  connectCalls : Nat
  disconnects : List Bool
  destroys : Nat
  done : Option Bool
deriving DecidableEq, Repr

/-- Output of an operation with no observable effect. -/
def noOut : Out :=
  { statuses := [], logs := 0, connectCalls := 0, disconnects := []
    destroys := 0, done := none }

/-- JS property write `node._users[id] = userNode` on the key set: an
already-present key keeps its position, a new key is appended. -/
def insertUser (users : List Nat) (id : Nat) : List Nat :=
  if id ∈ users then users else users ++ [id]

/-- Body of the `connect` listener (lines 98-110): clear `_connecting`,
set `connected`, send the green/dot/connected status to every registered
user. -/
def connectBody (s : NodeState) : NodeState × List (Nat × Status) :=
  ({ s with connecting := false, connected := true },
   s.users.map (fun id => (id, connectedStatus)))

/-- Body of the `reconnect` listener (lines 111-121): send the
yellow/ring/connecting status to every registered user; no state change. -/
def reconnectBody (s : NodeState) : List (Nat × Status) :=
  s.users.map (fun id => (id, reconnectingStatus))

/-- Body of the `close` listener (lines 123-138): if `connected`, clear it
and send the red/ring/disconnected status to every registered user; else
if `_connecting`, log a `Connect failed` diagnostic; the `_connecting`
flag itself is never written here. -/
def closeBody (s : NodeState) : NodeState × List (Nat × Status) × Nat :=
  if s.connected then
    ({ s with connected := false },
     s.users.map (fun id => (id, disconnectedStatus)), 0)
  else if s.connecting then
    (s, [], 1)
  else
    (s, [], 0)

/-- Run the `connect` listener body once per attached listener set, in
order, collecting the statuses sent. -/
def iterConnect : Nat → NodeState → NodeState × List (Nat × Status)
  | 0, s => (s, [])
  | n + 1, s =>
    let r1 := connectBody s
    let r2 := iterConnect n r1.1
    (r2.1, r1.2 ++ r2.2)

/-- Run the `close` listener body once per attached listener set, in
order, collecting the statuses sent and the diagnostics logged. -/
def iterClose : Nat → NodeState → NodeState × List (Nat × Status) × Nat
  | 0, s => (s, [], 0)
  | n + 1, s =>
    let r1 := closeBody s
    let r2 := iterClose n r1.1
    (r2.1, r1.2.1 ++ r2.2.1, r1.2.2 + r2.2.2)

/-- Underlying client emits `connect`: every attached listener set runs. -/
def deliverConnect (s : NodeState) : NodeState × Out :=
  let r := iterConnect s.handlers s
  (r.1, { noOut with statuses := r.2 })

/-- Underlying client emits `reconnect`: every attached listener set runs;
the listener does not change the node state. -/
def deliverReconnect (s : NodeState) : NodeState × Out :=
  (s, { noOut with statuses := (List.replicate s.handlers (reconnectBody s)).flatten })

/-- Underlying client emits `close`: every attached listener set runs. -/
def deliverClose (s : NodeState) : NodeState × Out :=
  let r := iterClose s.handlers s
  (r.1, { noOut with statuses := r.2.1, logs := r.2.2 })

/-- The `_connect` method (lines 92-140): if neither `connected` nor
`_connecting`, set `_connecting`, call `_client.connect()` and attach one
more set of `connect` / `reconnect` / `close` listeners; otherwise do
nothing. -/
def connectOp (s : NodeState) : NodeState × Out :=
  if !s.connected && !s.connecting then
    ({ s with connecting := true, handlers := s.handlers + 1 },
     { noOut with connectCalls := 1 })
  else
    (s, noOut)

/-- The `registerUserNode` method (lines 151-156): store the user node
under its id, then call `_connect` when the registry size is exactly 1. -/
def registerUserNode (s : NodeState) (id : Nat) : NodeState × Out :=
  let users := insertUser s.users id
  let s1 := { s with users := users }
  if users.length = 1 then connectOp s1 else (s1, noOut)

/-- The `unregisterUserNode` method (lines 166-180): delete the id; if
`_closing`, resolve `done` at once; else if the registry is now empty,
call `_client.disconnect(done)` when the underlying client reports itself
connected (`cc`), and otherwise `_client.disconnect()` followed by an
immediate `done()`; else resolve `done` at once. -/
def unregisterUserNode (s : NodeState) (id : Nat) (cc : Bool) :
    NodeState × Out :=
  let users := s.users.erase id
  let s1 := { s with users := users }
  if s.closing then
    (s1, { noOut with done := some true })
  else if users.length = 0 then
    if cc then
      (s1, { noOut with disconnects := [true], done := some false })
    else
      (s1, { noOut with disconnects := [false], done := some true })
  else
    (s1, { noOut with done := some true })

/-- The node's `close` handler, i.e. teardown (lines 290-299): set the
`_closing` latch; when `connected`, defer `done` to the client's next
`close` event; call `_client.destroy()`; when not `connected`, resolve
`done` immediately. -/
def closeNode (s : NodeState) : NodeState × Out :=
  ({ s with closing := true },
   { noOut with destroys := 1, done := some (!s.connected) })

/-- External stimuli of the node: the two registry operations (with the
underlying client's self-reported connected bit as an input to
unregister), the three client notifications, and teardown. -/
inductive Ev where
  | register (id : Nat)
  | unregister (id : Nat) (cc : Bool)
  | connectEv
  | reconnectEv
  | closeEv
  | teardown
deriving DecidableEq, Repr

/-- One step of the node under a stimulus. -/
def step (s : NodeState) : Ev → NodeState × Out
  | Ev.register id => registerUserNode s id
  | Ev.unregister id cc => unregisterUserNode s id cc
  | Ev.connectEv => deliverConnect s
  | Ev.reconnectEv => deliverReconnect s
  | Ev.closeEv => deliverClose s
  | Ev.teardown => closeNode s

/-- Run a sequence of stimuli from a state. -/
def run (s : NodeState) : List Ev → NodeState
  | [] => s
  | e :: es => run (step s e).1 es

/-- State reached from the freshly constructed node. -/
def reach (es : List Ev) : NodeState :=
  run initState es

/-- Total number of `_client.connect()` calls a stimulus sequence makes
from a state. -/
def connectCount (s : NodeState) : List Ev → Nat
  | [] => 0
  | e :: es => (step s e).2.connectCalls + connectCount (step s e).1 es

/-- Holds when no `close` notification in the sequence is delivered while
the node's `connected` flag is set. -/
def noCloseWhileConnected : NodeState → List Ev → Bool
  | _, [] => true
  | s, e :: es =>
    (decide (e ≠ Ev.closeEv) || !s.connected) &&
      noCloseWhileConnected (step s e).1 es

/-! ### Helper lemmas about the listener-body iterations -/

theorem iterConnect_users (n : Nat) (s : NodeState) :
    (iterConnect n s).1.users = s.users := by
  induction n generalizing s with
  | zero => rfl
  | succ n ih =>
    show (iterConnect n (connectBody s).1).1.users = s.users
    rw [ih]
    rfl

theorem iterConnect_state (n : Nat) (s : NodeState) :
    (iterConnect (n + 1) s).1 = { s with connecting := false, connected := true } := by
  induction n generalizing s with
  | zero => rfl
  | succ n ih =>
    show (iterConnect (n + 1) (connectBody s).1).1 = _
    rw [ih]
    rfl

theorem iterConnect_statuses (n : Nat) (s : NodeState) :
    (iterConnect n s).2 =
      (List.replicate n (s.users.map fun id => (id, connectedStatus))).flatten := by
  induction n generalizing s with
  | zero => rfl
  | succ n ih =>
    show (connectBody s).2 ++ (iterConnect n (connectBody s).1).2 = _
    rw [ih, List.replicate_succ, List.flatten_cons]
    rfl

theorem closeBody_users (s : NodeState) : (closeBody s).1.users = s.users := by
  unfold closeBody
  split
  · rfl
  · split <;> rfl

theorem iterClose_users (n : Nat) (s : NodeState) :
    (iterClose n s).1.users = s.users := by
  induction n generalizing s with
  | zero => rfl
  | succ n ih =>
    show (iterClose n (closeBody s).1).1.users = s.users
    rw [ih, closeBody_users]

theorem iterClose_notConnected (n : Nat) (s : NodeState) (h : s.connected = false) :
    iterClose n s = (s, [], if s.connecting = true then n else 0) := by
  induction n generalizing s with
  | zero => cases hc : s.connecting <;> simp [iterClose, hc]
  | succ n ih =>
    have hb : closeBody s = (s, [], if s.connecting = true then 1 else 0) := by
      unfold closeBody
      rw [h]
      cases hc : s.connecting <;> simp [hc]
    simp only [iterClose, hb, ih s h]
    cases hc : s.connecting <;> simp [hc, Nat.add_comm]

theorem iterClose_connected (n : Nat) (s : NodeState) (h : s.connected = true) :
    iterClose (n + 1) s =
      ({ s with connected := false },
       s.users.map (fun id => (id, disconnectedStatus)),
       if s.connecting = true then n else 0) := by
  have hb : closeBody s =
      ({ s with connected := false },
       s.users.map (fun id => (id, disconnectedStatus)), 0) := by
    unfold closeBody
    rw [h]
    simp
  have h2 : ({ s with connected := false } : NodeState).connected = false := rfl
  simp only [iterClose, hb, iterClose_notConnected n _ h2]
  simp

/-! ### Helper lemmas about the operations -/

theorem unregisterUserNode_state (s : NodeState) (id : Nat) (cc : Bool) :
    (unregisterUserNode s id cc).1 = { s with users := s.users.erase id } := by
  simp only [unregisterUserNode]
  split
  · rfl
  · split
    · split <;> rfl
    · rfl

theorem registerUserNode_users (s : NodeState) (id : Nat) :
    (registerUserNode s id).1.users = insertUser s.users id := by
  simp only [registerUserNode, connectOp]
  split
  · split <;> rfl
  · rfl

theorem insertUser_mem (l : List Nat) (id : Nat) : id ∈ insertUser l id := by
  unfold insertUser
  split
  · assumption
  · simp

theorem insertUser_of_mem (l : List Nat) (id : Nat) (h : id ∈ l) :
    insertUser l id = l := by
  unfold insertUser
  rw [if_pos h]

/-- Mutual exclusion of the `connected` and `_connecting` flags. -/
def FlagsInv (s : NodeState) : Prop :=
  s.connected = false ∨ s.connecting = false

theorem connectOp_inv (s : NodeState) (h : FlagsInv s) : FlagsInv (connectOp s).1 := by
  unfold connectOp
  split
  · next hg =>
    simp only [Bool.and_eq_true, Bool.not_eq_true'] at hg
    exact Or.inl hg.1
  · exact h

theorem deliverConnect_inv (s : NodeState) (h : FlagsInv s) :
    FlagsInv (deliverConnect s).1 := by
  show FlagsInv (iterConnect s.handlers s).1
  cases hn : s.handlers with
  | zero => exact h
  | succ k => rw [iterConnect_state]; exact Or.inr rfl

theorem deliverClose_inv (s : NodeState) (h : FlagsInv s) :
    FlagsInv (deliverClose s).1 := by
  show FlagsInv (iterClose s.handlers s).1
  cases hc : s.connected with
  | false => rw [iterClose_notConnected s.handlers s hc]; exact h
  | true =>
    cases hn : s.handlers with
    | zero => exact h
    | succ k => rw [iterClose_connected k s hc]; exact Or.inl rfl

theorem step_inv (s : NodeState) (e : Ev) (h : FlagsInv s) : FlagsInv (step s e).1 := by
  cases e with
  | register id =>
    show FlagsInv (registerUserNode s id).1
    simp only [registerUserNode]
    split
    · exact connectOp_inv _ h
    · exact h
  | unregister id cc =>
    show FlagsInv (unregisterUserNode s id cc).1
    rw [unregisterUserNode_state]
    exact h
  | connectEv => exact deliverConnect_inv s h
  | reconnectEv => exact h
  | closeEv => exact deliverClose_inv s h
  | teardown => exact h

theorem run_inv (es : List Ev) (s : NodeState) (h : FlagsInv s) :
    FlagsInv (run s es) := by
  induction es generalizing s with
  | nil => exact h
  | cons e es ih => exact ih (step s e).1 (step_inv s e h)

theorem step_connectCalls_pos (s : NodeState) (e : Ev)
    (h : 0 < (step s e).2.connectCalls) :
    s.connected = false ∧ s.connecting = false := by
  cases e with
  | register id =>
    revert h
    show 0 < (registerUserNode s id).2.connectCalls → _
    simp only [registerUserNode, connectOp]
    split
    · split
      · next hg =>
        simp only [Bool.and_eq_true, Bool.not_eq_true'] at hg
        exact fun _ => hg
      · intro h
        simp [noOut] at h
    · intro h
      simp [noOut] at h
  | unregister id cc =>
    revert h
    show 0 < (unregisterUserNode s id cc).2.connectCalls → _
    simp only [unregisterUserNode]
    split
    · intro h; simp [noOut] at h
    · split
      · split <;> (intro h; simp [noOut] at h)
      · intro h; simp [noOut] at h
  | connectEv =>
    revert h
    show 0 < (deliverConnect s).2.connectCalls → _
    intro h
    simp [deliverConnect, noOut] at h
  | reconnectEv =>
    simp [step, deliverReconnect, noOut] at h
  | closeEv =>
    revert h
    show 0 < (deliverClose s).2.connectCalls → _
    intro h
    simp [deliverClose, noOut] at h
  | teardown =>
    simp [step, closeNode, noOut] at h

/-- After a registration that finds the registry at size one, a connect
attempt is either in progress or already succeeded. -/
theorem registerUserNode_busy (s : NodeState) (id : Nat)
    (h : (insertUser s.users id).length = 1) :
    (registerUserNode s id).1.connecting = true ∨
      (registerUserNode s id).1.connected = true := by
  simp only [registerUserNode, connectOp]
  rw [if_pos h]
  split
  · exact Or.inl rfl
  · next hg =>
    simp only [Bool.and_eq_true, Bool.not_eq_true'] at hg
    rcases Decidable.not_and_iff_or_not.mp hg with hc | hc
    · exact Or.inr (Bool.not_eq_false _ ▸ eq_true_of_ne_false hc)
    · exact Or.inl (eq_true_of_ne_false hc)

/-- Registration makes no connect call when finding the registry at size
one would contradict the flags. -/
theorem registerUserNode_noconnect (s : NodeState) (id : Nat)
    (h : (insertUser s.users id).length = 1 →
      s.connecting = true ∨ s.connected = true) :
    (registerUserNode s id).2.connectCalls = 0 := by
  simp only [registerUserNode, connectOp]
  split
  · next hlen =>
    split
    · next hg =>
      simp only [Bool.and_eq_true, Bool.not_eq_true'] at hg
      rcases h hlen with hb | hb
      · rw [hg.2] at hb; exact absurd hb (by simp)
      · rw [hg.1] at hb; exact absurd hb (by simp)
    · rfl
  · rfl

theorem step_notify_users (s : NodeState) (e : Ev)
    (he : e = Ev.connectEv ∨ e = Ev.reconnectEv ∨ e = Ev.closeEv) :
    (step s e).1.users = s.users := by
  rcases he with rfl | rfl | rfl
  · exact iterConnect_users s.handlers s
  · rfl
  · exact iterClose_users s.handlers s

theorem step_notify_busy (s : NodeState) (e : Ev)
    (he : e = Ev.connectEv ∨ e = Ev.reconnectEv ∨ e = Ev.closeEv)
    (hcl : e = Ev.closeEv → s.connected = false)
    (h : s.connecting = true ∨ s.connected = true) :
    (step s e).1.connecting = true ∨ (step s e).1.connected = true := by
  rcases he with rfl | rfl | rfl
  · show (iterConnect s.handlers s).1.connecting = true ∨
      (iterConnect s.handlers s).1.connected = true
    cases hn : s.handlers with
    | zero => exact h
    | succ k => rw [iterConnect_state]; exact Or.inr rfl
  · exact h
  · show (iterClose s.handlers s).1.connecting = true ∨
      (iterClose s.handlers s).1.connected = true
    rw [iterClose_notConnected s.handlers s (hcl rfl)]
    exact h

theorem run_notify_users (mid : List Ev) (s : NodeState)
    (hmid : ∀ e ∈ mid, e = Ev.connectEv ∨ e = Ev.reconnectEv ∨ e = Ev.closeEv) :
    (run s mid).users = s.users := by
  induction mid generalizing s with
  | nil => rfl
  | cons e es ih =>
    show (run (step s e).1 es).users = s.users
    rw [ih (step s e).1 (fun x hx => hmid x (List.mem_cons_of_mem e hx)),
      step_notify_users s e (hmid e (List.mem_cons_self e es))]

theorem run_notify_busy (mid : List Ev) (s : NodeState)
    (hmid : ∀ e ∈ mid, e = Ev.connectEv ∨ e = Ev.reconnectEv ∨ e = Ev.closeEv)
    (hnc : noCloseWhileConnected s mid = true)
    (h : s.connecting = true ∨ s.connected = true) :
    (run s mid).connecting = true ∨ (run s mid).connected = true := by
  induction mid generalizing s with
  | nil => exact h
  | cons e es ih =>
    simp only [noCloseWhileConnected, Bool.and_eq_true, Bool.or_eq_true,
      decide_eq_true_eq, Bool.not_eq_true'] at hnc
    exact ih (step s e).1 (fun x hx => hmid x (List.mem_cons_of_mem e hx))
      hnc.2
      (step_notify_busy s e (hmid e (List.mem_cons_self e es))
        (fun hce => hnc.1.resolve_left (fun hne => hne hce)) h)

theorem length_ne_one_of_two_mem (l : List Nat) (a b : Nat)
    (ha : a ∈ l) (hb : b ∈ l) (hab : a ≠ b) : l.length ≠ 1 := by
  match l with
  | [] => simp at ha
  | [x] =>
    simp only [List.mem_singleton] at ha hb
    exact absurd (ha.trans hb.symm) hab
  | x :: y :: t => simp

theorem insertUser_length_ne_one (l : List Nat) (id j : Nat)
    (hj : j ∈ l) (hne : j ≠ id) : (insertUser l id).length ≠ 1 := by
  unfold insertUser
  split
  · next hid => exact length_ne_one_of_two_mem l j id hj hid hne
  · have : 0 < l.length := List.length_pos.mpr (List.ne_nil_of_mem hj)
    simp only [List.length_append, List.length_singleton]
    omega

/-! ### Claim theorems -/

/-- Claim C4: in every state reachable by any sequence of operations and
underlying-client notifications, the `connected` and `_connecting` flags
are never both true, and `_client.connect()` is invoked only from a state
in which both flags are false, so at most one connect attempt is in
flight at a time. -/
theorem dxl_c4 (es : List Ev) :
    ¬((reach es).connected = true ∧ (reach es).connecting = true) ∧
    ∀ e, 0 < (step (reach es) e).2.connectCalls →
      (reach es).connected = false ∧ (reach es).connecting = false := by
  refine ⟨?_, fun e h => step_connectCalls_pos (reach es) e h⟩
  have hinv : FlagsInv (reach es) := run_inv es initState (Or.inl rfl)
  rintro ⟨h1, h2⟩
  rcases hinv with h | h
  · rw [h1] at h
    exact absurd h (by simp)
  · rw [h2] at h
    exact absurd h (by simp)

/-- Claim C4 witness: in the initial state both flags are false and the
mutual-exclusion invariant holds; the first registration makes a connect
call, so the hypothesis of the second part is satisfiable. -/
theorem dxl_c4_witness :
    ¬((reach []).connected = true ∧ (reach []).connecting = true) ∧
    ((reach []).connected = false ∧ (reach []).connecting = false) :=
  ⟨(dxl_c4 []).1, (dxl_c4 []).2 (Ev.register 1) (by decide)⟩

/-- Claim C5: a connect-success notification clears `_connecting`, sets
`connected`, and invokes the status sink of every registered user (and of
no other id) with the green/dot/connected tuple. -/
theorem dxl_c5 (s : NodeState) (h : 0 < s.handlers) :
    (deliverConnect s).1.connecting = false ∧
    (deliverConnect s).1.connected = true ∧
    (∀ id, id ∈ s.users →
      (id, connectedStatus) ∈ (deliverConnect s).2.statuses) ∧
    (∀ p : Nat × Status, p ∈ (deliverConnect s).2.statuses →
      p.1 ∈ s.users ∧ p.2 = connectedStatus) := by
  obtain ⟨k, hk⟩ : ∃ k, s.handlers = k + 1 := ⟨s.handlers - 1, by omega⟩
  have hst : (deliverConnect s).1 =
      { s with connecting := false, connected := true } := by
    show (iterConnect s.handlers s).1 = _
    rw [hk, iterConnect_state, hk]
  have hout : (deliverConnect s).2.statuses =
      (List.replicate s.handlers
        (s.users.map fun id => (id, connectedStatus))).flatten := by
    show (iterConnect s.handlers s).2 = _
    exact iterConnect_statuses s.handlers s
  refine ⟨by rw [hst], by rw [hst], ?_, ?_⟩
  · intro id hid
    rw [hout, hk]
    simp only [List.mem_flatten, List.mem_replicate]
    exact ⟨s.users.map fun i => (i, connectedStatus), ⟨by omega, rfl⟩,
      List.mem_map_of_mem _ hid⟩
  · intro p hp
    rw [hout] at hp
    simp only [List.mem_flatten, List.mem_replicate] at hp
    obtain ⟨l, ⟨-, rfl⟩, hpl⟩ := hp
    obtain ⟨a, ha, rfl⟩ := List.mem_map.mp hpl
    exact ⟨ha, rfl⟩

/-- Claim C5 witness: with one user registered and one listener set
attached, the connect notification flips the flags and user 1 receives the
green/dot/connected status. -/
theorem dxl_c5_witness :
    (deliverConnect (reach [Ev.register 1])).1.connecting = false ∧
    (deliverConnect (reach [Ev.register 1])).1.connected = true ∧
    (1, connectedStatus) ∈ (deliverConnect (reach [Ev.register 1])).2.statuses :=
  ⟨(dxl_c5 (reach [Ev.register 1]) (by decide)).1,
   (dxl_c5 (reach [Ev.register 1]) (by decide)).2.1,
   (dxl_c5 (reach [Ev.register 1]) (by decide)).2.2.1 1 (by decide)⟩

/-- Claim C6: a close notification delivered while the `connected` flag is
set clears it and invokes the status sink of every registered user with
the red/ring/disconnected tuple. -/
theorem dxl_c6 (s : NodeState) (hc : s.connected = true) (hh : 0 < s.handlers) :
    (deliverClose s).1.connected = false ∧
    (deliverClose s).2.statuses =
      s.users.map (fun id => (id, disconnectedStatus)) := by
  obtain ⟨k, hk⟩ : ∃ k, s.handlers = k + 1 := ⟨s.handlers - 1, by omega⟩
  constructor
  · show (iterClose s.handlers s).1.connected = false
    rw [hk, iterClose_connected k s hc]
  · show (iterClose s.handlers s).2.1 = _
    rw [hk, iterClose_connected k s hc]

/-- Claim C6 witness: after one registration and a successful connect, a
close notification clears `connected` and sends the red/ring/disconnected
status to the registered user. -/
theorem dxl_c6_witness :
    (deliverClose (reach [Ev.register 1, Ev.connectEv])).1.connected = false ∧
    (deliverClose (reach [Ev.register 1, Ev.connectEv])).2.statuses =
      (reach [Ev.register 1, Ev.connectEv]).users.map
        (fun id => (id, disconnectedStatus)) :=
  dxl_c6 (reach [Ev.register 1, Ev.connectEv]) (by decide) (by decide)

/-- Claim C7: once the `_closing` latch is set, `unregisterUserNode`
resolves its completion callback immediately and invokes neither
`_client.disconnect` nor any user's status sink. -/
theorem dxl_c7 (s : NodeState) (id : Nat) (cc : Bool) (h : s.closing = true) :
    (unregisterUserNode s id cc).2.done = some true ∧
    (unregisterUserNode s id cc).2.disconnects = [] ∧
    (unregisterUserNode s id cc).2.statuses = [] := by
  simp only [unregisterUserNode]
  rw [if_pos h]
  exact ⟨rfl, rfl, rfl⟩

/-- Claim C7 witness: after teardown has set the latch, unregistering id 1
resolves immediately with no disconnect and no status update. -/
theorem dxl_c7_witness :
    (unregisterUserNode (reach [Ev.teardown]) 1 false).2.done = some true ∧
    (unregisterUserNode (reach [Ev.teardown]) 1 false).2.disconnects = [] ∧
    (unregisterUserNode (reach [Ev.teardown]) 1 false).2.statuses = [] :=
  dxl_c7 (reach [Ev.teardown]) 1 false (by decide)

/-- Claim C8: teardown sets the `_closing` latch and requests destruction
of the underlying client exactly once; its completion callback is deferred
to the client's close confirmation if and only if the `connected` flag was
set when teardown began, and the registry is left untouched regardless of
how many users are still registered. -/
theorem dxl_c8 (s : NodeState) :
    (closeNode s).1.closing = true ∧
    (closeNode s).2.destroys = 1 ∧
    (closeNode s).1.users = s.users ∧
    ((closeNode s).2.done = some false ↔ s.connected = true) := by
  refine ⟨rfl, rfl, rfl, ?_⟩
  cases hc : s.connected <;> simp [closeNode, hc]

/-- Claim C8 witness: tearing down a connected node with one registered
user defers the completion callback and keeps the registry. -/
theorem dxl_c8_witness :
    (closeNode (reach [Ev.register 1, Ev.connectEv])).1.closing = true ∧
    (closeNode (reach [Ev.register 1, Ev.connectEv])).2.destroys = 1 ∧
    (closeNode (reach [Ev.register 1, Ev.connectEv])).1.users =
      (reach [Ev.register 1, Ev.connectEv]).users ∧
    ((closeNode (reach [Ev.register 1, Ev.connectEv])).2.done = some false ↔
      (reach [Ev.register 1, Ev.connectEv]).connected = true) :=
  dxl_c8 (reach [Ev.register 1, Ev.connectEv])

/-- Claim C1 counterexample: after a registration starts a connect attempt
and a close notification arrives before any connect-success, the
`_connecting` flag is still `true` (the close listener only logs), so the
node has not returned to the idle flag configuration; consequently a later
0-to-1 registration transition (unregister the only user, then register a
new one) makes no `_client.connect()` call. -/
theorem dxl_c1_counterexample :
    (reach [Ev.register 1, Ev.closeEv]).connecting = true ∧
    (step (reach [Ev.register 1, Ev.closeEv, Ev.unregister 1 false])
      (Ev.register 2)).2.connectCalls = 0 := by decide

/-- Claim C1 (amended): when a close notification arrives while the node
is still connecting (not connected), only `Connect failed` diagnostics are
logged - one per attached listener set - no status is sent to any user,
and the state is completely unchanged; in particular `_connecting` remains
set, so a later registration into an emptied registry makes no new
`_client.connect()` call. -/
theorem dxl_c1_amended (s : NodeState) (hc : s.connected = false)
    (hg : s.connecting = true) :
    deliverClose s = (s, { noOut with logs := s.handlers }) ∧
    ∀ id, (registerUserNode { s with users := [] } id).2.connectCalls = 0 := by
  constructor
  · have h1 : iterClose s.handlers s = (s, [], s.handlers) := by
      rw [iterClose_notConnected s.handlers s hc, if_pos hg]
    show (let r := iterClose s.handlers s;
      (r.1, { noOut with statuses := r.2.1, logs := r.2.2 })) = _
    rw [h1]
    rfl
  · intro id
    apply registerUserNode_noconnect
    intro _
    exact Or.inl hg

/-- Claim C1 witness: the state reached by one registration is connecting
and not connected; delivering close there only logs, and a subsequent
registration of id 2 into an emptied registry makes no connect call. -/
theorem dxl_c1_witness :
    deliverClose (reach [Ev.register 1]) =
      (reach [Ev.register 1],
       { noOut with logs := (reach [Ev.register 1]).handlers }) ∧
    (registerUserNode { reach [Ev.register 1] with users := [] } 2).2.connectCalls
      = 0 :=
  ⟨(dxl_c1_amended (reach [Ev.register 1]) (by decide) (by decide)).1,
   (dxl_c1_amended (reach [Ev.register 1]) (by decide) (by decide)).2 2⟩

/-- Claim C2 counterexample: unregistering an id that was never registered
while the registry is already empty (and the node is not closing) still
calls `_client.disconnect()`, because the method only checks that the
registry is empty after the deletion. -/
theorem dxl_c2_counterexample :
    initState.users = [] ∧ initState.closing = false ∧
    (unregisterUserNode initState 0 false).2.disconnects = [false] := by decide

/-- Claim C2 (amended): `unregisterUserNode` requests a disconnect exactly
when the node is not closing and the registry is empty after the removal
(including when the removed id was absent and the registry was already
empty); when it does, the disconnect is awaited - the completion callback
is passed to `_client.disconnect` and resolves only when the client
finishes disconnecting - if and only if the underlying client reports
itself connected, and otherwise the disconnect is fire-and-forget with the
completion callback resolving immediately. -/
theorem dxl_c2_amended (s : NodeState) (id : Nat) (cc : Bool) :
    ((unregisterUserNode s id cc).2.disconnects ≠ [] ↔
      s.closing = false ∧ (s.users.erase id).length = 0) ∧
    (s.closing = false → (s.users.erase id).length = 0 →
      (unregisterUserNode s id cc).2.disconnects = [cc] ∧
      (unregisterUserNode s id cc).2.done = some (!cc)) := by
  simp only [unregisterUserNode]
  by_cases h1 : s.closing = true
  · rw [if_pos h1]
    constructor
    · simp [h1, noOut]
    · intro h
      rw [h] at h1
      exact absurd h1 (by simp)
  · have h1f : s.closing = false := by
      cases hcv : s.closing
      · rfl
      · exact absurd hcv h1
    rw [if_neg h1]
    by_cases h2 : (s.users.erase id).length = 0
    · rw [if_pos h2]
      cases cc <;> simp [h1f, h2]
    · rw [if_neg h2]
      constructor
      · simp [h2, noOut]
      · intro _ h
        exact absurd h h2

/-- Claim C2 witness: unregistering the only registered user while the
underlying client reports itself connected requests an awaited disconnect
with a deferred completion callback. -/
theorem dxl_c2_witness :
    (unregisterUserNode (reach [Ev.register 3]) 3 true).2.disconnects = [true] ∧
    (unregisterUserNode (reach [Ev.register 3]) 3 true).2.done = some false :=
  (dxl_c2_amended (reach [Ev.register 3]) 3 true).2 (by decide) (by decide)

/-- Claim C3 counterexample: registering id 1, receiving a connect-success
and then a close notification, and registering id 1 again - with no
unregistration of id 1 anywhere - invokes `_client.connect()` twice: the
close while connected resets both flags, and the re-registration of the
sole id sees registry size 1 again. -/
theorem dxl_c3_counterexample :
    connectCount initState
      [Ev.register 1, Ev.connectEv, Ev.closeEv, Ev.register 1] = 2 := by decide

/-- Claim C3 (amended): registering the same id twice with no intervening
unregistration, and any interleaving of client notifications between the
two calls, never invokes `_client.connect()` a second time unless one of
those notifications is a close delivered while the `connected` flag is
set. -/
theorem dxl_c3_amended (s : NodeState) (id : Nat) (mid : List Ev)
    (hmid : ∀ e ∈ mid, e = Ev.connectEv ∨ e = Ev.reconnectEv ∨ e = Ev.closeEv)
    (hnc : noCloseWhileConnected (step s (Ev.register id)).1 mid = true) :
    (step (run (step s (Ev.register id)).1 mid) (Ev.register id)).2.connectCalls
      = 0 := by
  have husers : (run (step s (Ev.register id)).1 mid).users =
      (registerUserNode s id).1.users := run_notify_users mid _ hmid
  show (registerUserNode (run (step s (Ev.register id)).1 mid) id).2.connectCalls
    = 0
  apply registerUserNode_noconnect
  intro hlen
  have hid : id ∈ (run (step s (Ev.register id)).1 mid).users := by
    rw [husers, registerUserNode_users]
    exact insertUser_mem _ _
  rw [insertUser_of_mem _ _ hid] at hlen
  have hlen1 : (insertUser s.users id).length = 1 := by
    rw [← registerUserNode_users s id, ← husers]
    exact hlen
  exact run_notify_busy mid _ hmid hnc (registerUserNode_busy s id hlen1)

/-- Claim C3 witness: registering id 1, receiving connect-success and a
reconnect notification (no close while connected), and registering id 1
again makes no second connect call. -/
theorem dxl_c3_witness :
    (step (run (step initState (Ev.register 1)).1 [Ev.connectEv, Ev.reconnectEv])
      (Ev.register 1)).2.connectCalls = 0 :=
  dxl_c3_amended initState 1 [Ev.connectEv, Ev.reconnectEv] (by decide) (by decide)

/-- Claim C9 counterexample: invoking the node's close handler a second
time, after a first teardown has already set the `_closing` latch, calls
`_client.destroy()` again - the handler has no guard at all. -/
theorem dxl_c9_counterexample :
    (closeNode initState).1.closing = true ∧
    (closeNode (closeNode initState).1).2.destroys = 1 := by decide

/-- Claim C9 (amended): re-invoking teardown after the `_closing` latch is
set leaves the state exactly as it was, but does request destruction of the
underlying client again (one more `_client.destroy()` call), resolving its
completion callback by the same rule as the first teardown: immediately
if and only if the `connected` flag is not set. -/
theorem dxl_c9_amended (s : NodeState) (h : s.closing = true) :
    (closeNode s).1 = s ∧
    (closeNode s).2 =
      { noOut with destroys := 1, done := some (!s.connected) } := by
  refine ⟨?_, rfl⟩
  cases s with
  | mk cn cg cl u hdl =>
    replace h : cl = true := h
    subst h
    rfl

/-- Claim C9 witness: a second teardown right after the first leaves the
state unchanged and performs exactly one more destruction request. -/
theorem dxl_c9_witness :
    (closeNode (closeNode initState).1).1 = (closeNode initState).1 ∧
    (closeNode (closeNode initState).1).2 =
      { noOut with
        destroys := 1
        done := some (!(closeNode initState).1.connected) } :=
  dxl_c9_amended (closeNode initState).1 (by decide)

/-- Claim C10 counterexample: with user 1 registered (registry non-empty)
and the node neither connected nor connecting - reached by register,
connect-success, close - re-registering id 1 makes a `_client.connect()`
call and sets the `_connecting` flag, so a registration into a non-empty
registry is not always free of connect attempts and flag changes. -/
theorem dxl_c10_counterexample :
    (reach [Ev.register 1, Ev.connectEv, Ev.closeEv]).users ≠ [] ∧
    (step (reach [Ev.register 1, Ev.connectEv, Ev.closeEv])
      (Ev.register 1)).2.connectCalls = 1 ∧
    (step (reach [Ev.register 1, Ev.connectEv, Ev.closeEv])
      (Ev.register 1)).1.connecting = true ∧
    (reach [Ev.register 1, Ev.connectEv, Ev.closeEv]).connecting = false := by
  decide

/-- Claim C10 (amended): registering a consumer while some other id is
already registered changes only the registry (the plain key insert): no
user's status sink is invoked, no connect is made, and the `connected`,
`_connecting`, `_closing` flags and listener count are unchanged. -/
theorem dxl_c10_amended (s : NodeState) (id j : Nat)
    (hj : j ∈ s.users) (hne : j ≠ id) :
    (registerUserNode s id).1.users = insertUser s.users id ∧
    (registerUserNode s id).1.connected = s.connected ∧
    (registerUserNode s id).1.connecting = s.connecting ∧
    (registerUserNode s id).1.closing = s.closing ∧
    (registerUserNode s id).1.handlers = s.handlers ∧
    (registerUserNode s id).2 = noOut := by
  have hlen := insertUser_length_ne_one s.users id j hj hne
  simp only [registerUserNode]
  rw [if_neg hlen]
  exact ⟨rfl, rfl, rfl, rfl, rfl, rfl⟩

/-- Claim C10 witness: registering id 2 while id 1 is registered and the
node is connecting only extends the registry. -/
theorem dxl_c10_witness :
    (registerUserNode (reach [Ev.register 1]) 2).1.users =
      insertUser (reach [Ev.register 1]).users 2 ∧
    (registerUserNode (reach [Ev.register 1]) 2).1.connected =
      (reach [Ev.register 1]).connected ∧
    (registerUserNode (reach [Ev.register 1]) 2).1.connecting =
      (reach [Ev.register 1]).connecting ∧
    (registerUserNode (reach [Ev.register 1]) 2).1.closing =
      (reach [Ev.register 1]).closing ∧
    (registerUserNode (reach [Ev.register 1]) 2).1.handlers =
      (reach [Ev.register 1]).handlers ∧
    (registerUserNode (reach [Ev.register 1]) 2).2 = noOut :=
  dxl_c10_amended (reach [Ev.register 1]) 2 1 (by decide) (by decide)
